import Mathlib

/-!
Shallow embedding of the single-attempt OCI provisioning engine
(provision_once.py and oci_utils.py).

External interactions (provider API responses, the file system, the clock,
SMTP and webhook transports) are modelled as explicit inputs and as an
explicit list of emitted effects, so every embedded function is a pure,
executable Lean function whose effect trace mirrors the side effects the
Python code would perform.
-/

namespace Oci

/-- Observable side effects of the embedded functions.  Logging calls are not
modelled; every other side effect of the source (sleeping, notification
fan-out, the success marker file, SSH key generation and file writes) is. -/
inductive Effect
  | sleep (secs : Nat)
  | notifyInvoked (failureMsg : String)
  | sendEmail (subject body addr : String)
  | sendDiscord (url msg : String)
  | writeMarker
  | generateKey (bits : Nat)
  | writeFile (path contents : String)
deriving DecidableEq, Repr

/-- Normalized provider error, the dict built by execute_oci_command in
oci_utils.py (keys code, message, status) and the error_data dict built in
attempt_instance_creation in provision_once.py. -/
structure ProviderError where
  code : String
  message : String
  httpStatus : Nat
deriving DecidableEq, Repr

/-- The retryable code tuple from oci_utils.py line 133 and
provision_once.py line 182. -/
def retryableCodes : List String :=
  ["TooManyRequests", "Out of host capacity.", "InternalError"]

/-- The retryable message tuple from oci_utils.py line 134 and
provision_once.py line 183. -/
def retryableMessages : List String :=
  ["Out of host capacity.", "Bad Gateway"]

/-- Notification-relevant fields of OCIConfig (oci_utils.py lines 59-62):
NOTIFY_EMAIL is the parsed boolean, DISCORD_WEBHOOK the raw string whose
Python truthiness (non-emptiness) gates the webhook channel. -/
structure NotifyConfig where
  notifyEmail : Bool
  email : String
  emailPassword : String
  discordWebhook : String
deriving DecidableEq, Repr

/-- send_email from oci_utils.py: attempts SMTP delivery; transport failures
are swallowed, so the effect records only the attempt. -/
def send_email (subject body email : String) : List Effect :=
  [Effect.sendEmail subject body email]

/-- send_discord_message from oci_utils.py: returns without sending when the
webhook URL is empty, otherwise attempts the POST (failures swallowed). -/
def send_discord_message (webhookUrl message : String) : List Effect :=
  if webhookUrl = "" then [] else [Effect.sendDiscord webhookUrl message]

/-- notify_on_failure from oci_utils.py lines 195-205.  The Python function
re-reads OCIConfig() from the environment; the config is passed here as an
explicit argument.  Returns the effects it performs. -/
def notify_on_failure (cfg : NotifyConfig) (failureMsg : String) : List Effect :=
  (if cfg.notifyEmail then
    send_email "OCI Instance Creation Failed" failureMsg cfg.email
   else []) ++
  (if cfg.discordWebhook ≠ "" then
    send_discord_message cfg.discordWebhook
      ("OCI Instance Creation Failed" ++ "\n" ++ failureMsg)
   else [])

/-- The failure message built in handle_errors (oci_utils.py line 145):
newline-joined key: value pairs of the normalized error dict, whose insertion
order is code, message, status (execute_oci_command lines 155-159). -/
def failure_msg (d : ProviderError) : String :=
  "code: " ++ d.code ++ "\n" ++ "message: " ++ d.message ++ "\n" ++
    "status: " ++ toString d.httpStatus

/-- handle_errors from oci_utils.py lines 126-147, on a normalized error dict
(all three keys present, as produced by execute_oci_command).  Returns the
Python return value (true = retryable, false = fatal) together with the
effects performed: the retryable branches sleep wait_time, the fatal branch
invokes notify_on_failure once. -/
def handle_errors (d : ProviderError) (cfg : NotifyConfig) (waitTime : Nat) :
    Bool × List Effect :=
  if retryableCodes.contains d.code || retryableMessages.contains d.message then
    (true, [Effect.sleep waitTime])
  else if d.httpStatus == 502 then
    (true, [Effect.sleep waitTime])
  else
    (false, Effect.notifyInvoked (failure_msg d) ::
      notify_on_failure cfg (failure_msg d))

/-- One listed compute instance, with the fields check_instance_exists reads. -/
structure Instance where
  shape : String
  lifecycle_state : String
  display_name : String
  id : String
deriving DecidableEq, Repr

/-- The match predicate of the loop body in check_instance_exists
(oci_utils.py lines 241-242). -/
def instanceMatches (shape : String) (i : Instance) : Bool :=
  i.shape == shape &&
    (i.lifecycle_state == "RUNNING" || i.lifecycle_state == "PROVISIONING" ||
     i.lifecycle_state == "STARTING")

/-- check_instance_exists from oci_utils.py lines 236-245.  The instances
argument is the fully drained paginated listing returned by
list_all_instances; the Python pair (True, instance) / (False, None) is
modelled as an Option.  Returns the first instance of the target shape in an
active lifecycle state. -/
def check_instance_exists (instances : List Instance) (shape : String) :
    Option Instance :=
  instances.find? (instanceMatches shape)

/-- Outcome of the launch_instance call, as observed by
attempt_instance_creation: a response object (with status and the created
instance id), an oci ServiceError (code, message, status), or any other
exception (its rendered text). -/
inductive LaunchResult
  | response (status : Nat) (instanceId : String)
  | serviceError (code message : String) (status : Nat)
  | otherError (msg : String)
deriving DecidableEq, Repr

/-- External inputs of one run of attempt_instance_creation: the fully
drained instance listing at the up-front existence check, the outcome of the
launch call (reached only when that check finds nothing), and the listing at
the re-check performed after a LimitExceeded error. -/
structure AttemptEnv where
  preInstances : List Instance
  launch : LaunchResult
  postInstances : List Instance
deriving DecidableEq, Repr

/-- The (success, retry_possible, message) triple returned by
attempt_instance_creation. -/
structure AttemptResult where
  success : Bool
  retry_possible : Bool
  message : String
deriving DecidableEq, Repr

/-- The tail of the ServiceError handler in attempt_instance_creation
(provision_once.py lines 174-190), reached when the error is not a
LimitExceeded rescued by the re-check: classifies the error as a retryable
capacity issue or a fatal error. -/
def classify_service_error (code message : String) (status : Nat) :
    AttemptResult :=
  if retryableCodes.contains code || retryableMessages.contains message ||
      status == 502 then
    { success := false, retry_possible := true,
      message := "Capacity issue: " ++ message }
  else
    { success := false, retry_possible := false,
      message := "Fatal error: " ++ message }

/-- attempt_instance_creation from provision_once.py lines 99-194, over the
explicit environment: returns the (success, retry_possible, message) triple
and the effects performed (writing the INSTANCE_CREATED marker; this function
never invokes the notification fan-out). -/
def attempt_instance_creation (shape : String) (env : AttemptEnv) :
    AttemptResult × List Effect :=
  match check_instance_exists env.preInstances shape with
  | some inst =>
    ({ success := true, retry_possible := false,
       message := "Instance already exists: " ++ inst.display_name }, [])
  | none =>
    match env.launch with
    | LaunchResult.response status instanceId =>
      if status == 200 then
        ({ success := true, retry_possible := false,
           message := "Instance creation successful: " ++ instanceId },
         [Effect.writeMarker])
      else
        ({ success := false, retry_possible := false,
           message := "Unexpected response status: " ++ toString status }, [])
    | LaunchResult.serviceError code message status =>
      if code == "LimitExceeded" then
        match check_instance_exists env.postInstances shape with
        | some inst =>
          ({ success := true, retry_possible := false,
             message := "Instance created: " ++ inst.display_name },
           [Effect.writeMarker])
        | none => (classify_service_error code message status, [])
      else (classify_service_error code message status, [])
    | LaunchResult.otherError msg =>
      ({ success := false, retry_possible := false,
         message := "Unexpected error: " ++ msg }, [])

/-- How one run of main in provision_once.py unfolds before the exit-code
decision: configuration / client setup raised (the outer except at lines
233-237), get_instance_creation_params returned None (line 211), or the
attempt ran against an environment. -/
inductive MainEnv
  | setupError (msg : String)
  | paramsNone
  | run (shape : String) (env : AttemptEnv)
deriving DecidableEq, Repr

/-- The sys.exit argument of main in provision_once.py lines 196-237:
2 when parameters could not be prepared or an unexpected exception escaped,
otherwise 0 / 1 / 2 from the attempt triple (lines 226-231). -/
def mainExitCode : MainEnv → Nat
  | MainEnv.setupError _ => 2
  | MainEnv.paramsNone => 2
  | MainEnv.run shape env =>
    let r := (attempt_instance_creation shape env).1
    if r.success then 0 else if r.retry_possible then 1 else 2

/-- ARM_SHAPE constant from oci_utils.py line 25. -/
def ARM_SHAPE : String := "VM.Standard.A1.Flex"

/-- E2_MICRO_SHAPE constant from oci_utils.py line 26. -/
def E2_MICRO_SHAPE : String := "VM.Standard.E2.1.Micro"

/-- The shape check of OCIConfig._validate_config (oci_utils.py lines 76-77):
a configuration passes startup validation only when its shape is one of the
two supported values. -/
def validShape (shape : String) : Prop :=
  shape = ARM_SHAPE ∨ shape = E2_MICRO_SHAPE

/-- Python str.startswith, written over the character lists so the kernel can
evaluate it. -/
def pyStartswith (s pre : String) : Bool :=
  List.isPrefixOf pre.data s.data

/-- The fields of oci.core.models.LaunchInstanceShapeConfigDetails that
get_instance_creation_params sets. -/
structure LaunchInstanceShapeConfigDetails where
  ocpus : Nat
  memory_in_gbs : Nat
  baseline_ocpu_utilization : String
deriving DecidableEq, Repr

/-- The shape-configuration step of get_instance_creation_params
(provision_once.py lines 67-75): a fixed ocpu/memory/baseline override when
the shape starts with VM.Standard.A1, otherwise None. -/
def resolve_shape_config (shape : String) :
    Option LaunchInstanceShapeConfigDetails :=
  if pyStartswith shape "VM.Standard.A1" then
    some { ocpus := 1, memory_in_gbs := 6,
           baseline_ocpu_utilization := "BASELINE_1_1" }
  else none

/-- One step of the itertools.cycle iterator built at provision_once.py
lines 36-38: given the original list and the unconsumed remainder, yield the
next element and the new remainder, wrapping to the start when the remainder
is exhausted (none only when the original list is empty). -/
def cycleAdvance (orig rest : List String) :
    Option (String × List String) :=
  match rest with
  | x :: xs => some (x, xs)
  | [] =>
    match orig with
    | [] => none
    | x :: xs => some (x, xs)

/-- The element produced by the (k+1)-th next() call on the cycle iterator,
starting from remainder rest (pullN orig orig k is the k-th pull, counting
from zero, on a freshly built itertools.cycle(orig)). -/
def pullN (orig : List String) : List String → Nat → Option String
  | rest, 0 => (cycleAdvance orig rest).map Prod.fst
  | rest, k + 1 =>
    match cycleAdvance orig rest with
    | none => none
    | some (_, rest1) => pullN orig rest1 k

/-- The availability-domain step of get_instance_creation_params
(provision_once.py lines 33-38): when OCT_FREE_AD is set (non-empty, Python
truthiness) it must be among the listed domain names or a ValueError is
raised (modelled as none), and the cycle is built over the singleton list;
otherwise the cycle is built over all listed names.  Returns the base list of
the cycle. -/
def resolve_ad_cycle (octFreeAd : String) (adNames : List String) :
    Option (List String) :=
  if octFreeAd ≠ "" then
    if adNames.contains octFreeAd then some [octFreeAd] else none
  else some adNames

/-- Replacement loop for Python str.replace: scan the text left to right,
substituting each occurrence of the (non-empty) pattern.  The fuel argument
only bounds the recursion; starting it at the text length never exhausts it
because every step consumes at least one character. -/
def replaceAux : Nat → List Char → List Char → List Char → List Char
  | 0, l, _, _ => l
  | _ + 1, [], _, _ => []
  | fuel + 1, c :: rest, pat, rep =>
    if List.isPrefixOf pat (c :: rest) then
      rep ++ replaceAux fuel (List.drop pat.length (c :: rest)) pat rep
    else c :: replaceAux fuel rest pat rep

/-- Python str.replace(pat, rep) for a non-empty pattern (the only use in the
source is replacing the literal .pub, provision_once has none).  An empty
pattern is returned unchanged, a case the source never exercises. -/
def pyReplace (s pat rep : String) : String :=
  if pat.data = [] then s
  else String.mk (replaceAux s.data.length s.data pat.data rep.data)

/-- The whitespace set of Python str.strip with no arguments. -/
def pySpace (c : Char) : Bool :=
  c = ' ' || c = '\t' || c = '\n' || c = '\r' || c = '\x0b' || c = '\x0c'

/-- Python str.strip(): drop leading and trailing whitespace. -/
def pyStrip (s : String) : String :=
  String.mk (((s.data.dropWhile pySpace).reverse.dropWhile pySpace).reverse)

/-- A file system restricted to the files the key resolver touches: path to
file contents, none when no file exists at the path. -/
def FS : Type := String → Option String

/-- The outputs of paramiko.RSAKey.generate as the resolver consumes them:
get_name() (the algorithm name, ssh-rsa), get_base64() (the base64 public
key material, which contains no whitespace), and the serialized private key
that write_private_key_file persists. -/
structure GeneratedKey where
  name : String
  base64 : String
  privMaterial : String
deriving DecidableEq, Repr

/-- read_or_generate_ssh_public_key from oci_utils.py lines 207-228 over the
explicit file system.  When the public key file exists its stripped contents
are returned and nothing is touched; otherwise a 2048-bit key pair is
generated (gen stands for the nondeterministic paramiko call), the private
half is written to the path with .pub removed, the public half (name,
space, base64) is written to the public path, and the public half is
returned.  Result: (returned key, file system after, effects). -/
def read_or_generate_ssh_public_key (fs : FS) (publicKeyFile : String)
    (gen : GeneratedKey) : String × FS × List Effect :=
  let privateKeyFile := pyReplace publicKeyFile ".pub" ""
  match fs publicKeyFile with
  | some contents => (pyStrip contents, fs, [])
  | none =>
    let publicKey := gen.name ++ " " ++ gen.base64
    let fs1 : FS := fun p =>
      if p = privateKeyFile then some gen.privMaterial else fs p
    let fs2 : FS := fun p =>
      if p = publicKeyFile then some publicKey else fs1 p
    (publicKey, fs2,
     [Effect.generateKey 2048,
      Effect.writeFile privateKeyFile gen.privMaterial,
      Effect.writeFile publicKeyFile publicKey])

/-- Predicate singling out the notify_on_failure invocation effect. -/
def isNotifyInvoked : Effect → Bool
  | Effect.notifyInvoked _ => true
  | _ => false

/-- Predicate covering every notification-related effect: the
notify_on_failure invocation itself and both delivery channels. -/
def isNotifyEffect : Effect → Bool
  | Effect.notifyInvoked _ => true
  | Effect.sendEmail _ _ _ => true
  | Effect.sendDiscord _ _ => true
  | _ => false

/-- The Bool match predicate of check_instance_exists agrees with its
propositional reading. -/
theorem instanceMatches_iff (shape : String) (i : Instance) :
    instanceMatches shape i = true ↔
      (i.shape = shape ∧ (i.lifecycle_state = "RUNNING" ∨
        i.lifecycle_state = "PROVISIONING" ∨
        i.lifecycle_state = "STARTING")) := by
  simp [instanceMatches, or_assoc]

/-- Invariant of the cycle iterator: pulling k more elements from the state
whose remainder is the original list with its first i elements consumed
yields element (i + k) modulo the length. -/
theorem pullN_mod (l : List String) :
    ∀ (k i : Nat), l ≠ [] → i ≤ l.length →
      pullN l (l.drop i) k = l.get? ((i + k) % l.length) := by
  intro k
  induction k with
  | zero =>
    intro i hl hi
    rcases Nat.lt_or_eq_of_le hi with hlt | heq
    · rw [List.drop_eq_getElem_cons hlt]
      simp only [pullN, cycleAdvance, Nat.add_zero]
      rw [Nat.mod_eq_of_lt hlt]
      rw [List.get?_eq_getElem?, List.getElem?_eq_getElem hlt]
      rfl
    · subst heq
      rw [List.drop_length]
      cases l with
      | nil => simp at hl
      | cons x xs =>
        simp only [pullN, cycleAdvance, Nat.add_zero, Nat.mod_self]
        rfl
  | succ k ih =>
    intro i hl hi
    rcases Nat.lt_or_eq_of_le hi with hlt | heq
    · rw [List.drop_eq_getElem_cons hlt]
      simp only [pullN, cycleAdvance]
      rw [show i + (k + 1) = i + 1 + k from by omega]
      rw [ih (i + 1) hl (Nat.succ_le_of_lt hlt)]
    · subst heq
      rw [List.drop_length]
      cases l with
      | nil => simp at hl
      | cons x xs =>
        simp only [pullN, cycleAdvance]
        have h2 := ih 1 hl (by simp)
        simp only [List.drop_succ_cons, List.drop_zero] at h2
        rw [h2, Nat.add_mod_left, Nat.add_comm 1 k]

/-- Every control-flow path of attempt_instance_creation performs either no
effect or exactly the single marker write. -/
theorem attempt_effects_cases (shape : String) (env : AttemptEnv) :
    (attempt_instance_creation shape env).2 = [] ∨
    (attempt_instance_creation shape env).2 = [Effect.writeMarker] := by
  obtain ⟨preI, launch, postI⟩ := env
  rcases hpre : check_instance_exists preI shape with _ | inst0
  · cases launch with
    | response status iid =>
      by_cases h200 : status = 200
      · subst h200; simp [attempt_instance_creation, hpre]
      · simp [attempt_instance_creation, hpre, h200]
    | serviceError code cmsg cst =>
      by_cases hlim : code = "LimitExceeded"
      · subst hlim
        rcases hpost : check_instance_exists postI shape with _ | inst1 <;>
          simp [attempt_instance_creation, hpre, hpost]
      · simp only [attempt_instance_creation, hpre]
        rw [if_neg (by simpa using hlim)]
        simp
    | otherError m => simp [attempt_instance_creation, hpre]
  · simp [attempt_instance_creation, hpre]

/-- Claim C1: every run of main in provision_once.py exits with exactly one
of the tri-state codes: 0 exactly when the attempt reports success (instance
created, or one of the target shape already exists), 1 exactly when the
attempt reported a retryable capacity issue, and 2 in every other case
(parameter-resolution failure, setup exception, fatal provider error, or any
unexpected exception). -/
theorem main_exit_code_tristate (shape m : String) (env : AttemptEnv) :
    mainExitCode (MainEnv.setupError m) = 2 ∧
    mainExitCode MainEnv.paramsNone = 2 ∧
    (mainExitCode (MainEnv.run shape env) = 0 ∨
     mainExitCode (MainEnv.run shape env) = 1 ∨
     mainExitCode (MainEnv.run shape env) = 2) ∧
    (mainExitCode (MainEnv.run shape env) = 0 ↔
      ((attempt_instance_creation shape env).1).success = true) ∧
    (mainExitCode (MainEnv.run shape env) = 1 ↔
      (((attempt_instance_creation shape env).1).success = false ∧
       ((attempt_instance_creation shape env).1).retry_possible = true)) ∧
    (mainExitCode (MainEnv.run shape env) = 2 ↔
      (((attempt_instance_creation shape env).1).success = false ∧
       ((attempt_instance_creation shape env).1).retry_possible = false)) := by
  refine ⟨rfl, rfl, ?_, ?_, ?_, ?_⟩ <;>
  · simp only [mainExitCode]
    rcases hs : ((attempt_instance_creation shape env).1).success <;>
    rcases hr : ((attempt_instance_creation shape env).1).retry_possible <;>
    simp [hs, hr]

/-- Claim C2: both classifiers in the source (handle_errors in oci_utils.py
and the inline ServiceError classification of attempt_instance_creation in
provision_once.py) return Retryable if and only if the code is in the
retryable-code set, or the message is in the retryable-message set, or the
HTTP status equals 502; every other normalized error is classified Fatal. -/
theorem classify_retryable_iff (d : ProviderError) (cfg : NotifyConfig)
    (w : Nat) :
    ((handle_errors d cfg w).1 = true ↔
      (d.code = "TooManyRequests" ∨ d.code = "Out of host capacity." ∨
       d.code = "InternalError" ∨ d.message = "Out of host capacity." ∨
       d.message = "Bad Gateway" ∨ d.httpStatus = 502)) ∧
    ((classify_service_error d.code d.message d.httpStatus).retry_possible =
        true ↔
      (d.code = "TooManyRequests" ∨ d.code = "Out of host capacity." ∨
       d.code = "InternalError" ∨ d.message = "Out of host capacity." ∨
       d.message = "Bad Gateway" ∨ d.httpStatus = 502)) ∧
    (classify_service_error d.code d.message d.httpStatus).success = false := by
  have h1 : (retryableCodes.contains d.code = true) ↔
      (d.code = "TooManyRequests" ∨ d.code = "Out of host capacity." ∨
       d.code = "InternalError") := by
    simp [retryableCodes, List.contains]
  have h2 : (retryableMessages.contains d.message = true) ↔
      (d.message = "Out of host capacity." ∨ d.message = "Bad Gateway") := by
    simp [retryableMessages, List.contains]
  refine ⟨?_, ?_, ?_⟩
  · unfold handle_errors
    split
    · rename_i h
      simp only [Bool.or_eq_true, h1, h2] at h
      simp only [true_iff]
      tauto
    · rename_i h
      simp only [Bool.or_eq_true, h1, h2] at h
      push_neg at h
      split
      · rename_i h3
        simp only [beq_iff_eq] at h3
        simp only [true_iff]
        tauto
      · rename_i h3
        simp only [beq_iff_eq] at h3
        simp only [Bool.false_eq_true, false_iff]
        tauto
  · unfold classify_service_error
    split
    · rename_i h
      simp only [Bool.or_eq_true, h1, h2, beq_iff_eq] at h
      simp only [true_iff]
      tauto
    · rename_i h
      simp only [Bool.or_eq_true, h1, h2, beq_iff_eq] at h
      push_neg at h
      simp only [Bool.false_eq_true, false_iff]
      tauto
  · unfold classify_service_error
    split <;> rfl

/-- Claim C3, counterexample: an attempt whose outcome is Fatal (launch
fails with code InvalidParameter, message bad subnet, HTTP 400, and the
error matches no retryable rule) performs no effect at all — in particular
the notification fan-out is invoked zero times, not exactly once, refuting
the claim for the single-attempt mode. -/
theorem fatal_attempt_notifies_nothing :
    ((attempt_instance_creation "VM.Standard.E2.1.Micro"
        ⟨[], LaunchResult.serviceError "InvalidParameter" "bad subnet" 400,
         []⟩).1 =
      { success := false, retry_possible := false,
        message := "Fatal error: bad subnet" }) ∧
    ((attempt_instance_creation "VM.Standard.E2.1.Micro"
        ⟨[], LaunchResult.serviceError "InvalidParameter" "bad subnet" 400,
         []⟩).2 = []) ∧
    ((attempt_instance_creation "VM.Standard.E2.1.Micro"
        ⟨[], LaunchResult.serviceError "InvalidParameter" "bad subnet" 400,
         []⟩).2.countP isNotifyEffect = 0) := by
  decide

/-- Claim C3 as amended: only handle_errors (used by the polling mode)
invokes the notification fan-out, and it does so exactly once per Fatal
classification, attempting email delivery exactly when that channel is
enabled and webhook delivery exactly when a webhook URL is configured; the
single-attempt executor attempt_instance_creation never performs any
notification effect, even on Fatal outcomes. -/
theorem fatal_notification_in_handle_errors_only (d : ProviderError)
    (cfg : NotifyConfig) (w : Nat) (shape : String) (env : AttemptEnv) :
    ((handle_errors d cfg w).1 = false →
      ((handle_errors d cfg w).2.countP isNotifyInvoked = 1 ∧
       ((Effect.sendEmail "OCI Instance Creation Failed" (failure_msg d)
           cfg.email ∈ (handle_errors d cfg w).2) ↔ cfg.notifyEmail = true) ∧
       ((∃ m, Effect.sendDiscord cfg.discordWebhook m ∈
           (handle_errors d cfg w).2) ↔ cfg.discordWebhook ≠ ""))) ∧
    (attempt_instance_creation shape env).2.countP isNotifyEffect = 0 := by
  constructor
  · intro hfatal
    unfold handle_errors at hfatal ⊢
    split at hfatal
    · simp at hfatal
    · split at hfatal
      · simp at hfatal
      · rename_i h1 h2
        rw [if_neg h1, if_neg h2]
        refine ⟨?_, ?_, ?_⟩
        · simp only [List.countP_cons, isNotifyInvoked]
          rcases he : cfg.notifyEmail <;>
          by_cases hd : cfg.discordWebhook = "" <;>
            simp [notify_on_failure, send_email, send_discord_message, he, hd,
              isNotifyInvoked]
        · rcases he : cfg.notifyEmail <;>
          by_cases hd : cfg.discordWebhook = "" <;>
            simp [notify_on_failure, send_email, send_discord_message, he, hd]
        · rcases he : cfg.notifyEmail <;>
          by_cases hd : cfg.discordWebhook = "" <;>
            simp [notify_on_failure, send_email, send_discord_message, he, hd]
  · rcases attempt_effects_cases shape env with h | h <;>
      simp [h, isNotifyEffect]

/-- Claim C3 amended, witness: a Fatal classification through handle_errors
with both channels configured performs the fan-out exactly once. -/
theorem fatal_notification_in_handle_errors_only_witness :
    (handle_errors
      { code := "InvalidParameter", message := "bad subnet", httpStatus := 400 }
      { notifyEmail := true, email := "ops@example.com", emailPassword := "pw",
        discordWebhook := "https://hook.example" }
      30).2.countP isNotifyInvoked = 1 := by
  have h := fatal_notification_in_handle_errors_only
    { code := "InvalidParameter", message := "bad subnet", httpStatus := 400 }
    { notifyEmail := true, email := "ops@example.com", emailPassword := "pw",
      discordWebhook := "https://hook.example" }
    30 "s" ⟨[], LaunchResult.otherError "x", []⟩
  exact (h.1 (by decide)).1

/-- Claim C4, counterexample: handle_errors is not side-effect-free: on a
retryable input (code TooManyRequests) it performs the blocking sleep of the
configured wait time itself, refuting the claim that the classifier never
sleeps. -/
theorem classifier_sleeps_counterexample :
    ((handle_errors
        { code := "TooManyRequests", message := "rate limited",
          httpStatus := 429 }
        { notifyEmail := false, email := "", emailPassword := "",
          discordWebhook := "" } 30).2 = [Effect.sleep 30]) ∧
    ((handle_errors
        { code := "TooManyRequests", message := "rate limited",
          httpStatus := 429 }
        { notifyEmail := false, email := "", emailPassword := "",
          discordWebhook := "" } 30).2 ≠ []) := by
  decide

/-- Claim C4 as amended: the classification handle_errors returns is a
deterministic function of the normalized error alone (independent of the
notification configuration and of the wait time, hence identical across
runs on the same input), but handle_errors is not effect-free: it sleeps the
configured wait time on every Retryable input and invokes notify_on_failure
once on every Fatal input. -/
theorem classifier_deterministic_but_effectful (d : ProviderError)
    (cfg cfg2 : NotifyConfig) (w w2 : Nat) :
    ((handle_errors d cfg w).1 = (handle_errors d cfg2 w2).1) ∧
    ((handle_errors d cfg w).1 = true →
      (handle_errors d cfg w).2 = [Effect.sleep w]) ∧
    ((handle_errors d cfg w).1 = false →
      (handle_errors d cfg w).2 =
        Effect.notifyInvoked (failure_msg d) ::
          notify_on_failure cfg (failure_msg d)) := by
  unfold handle_errors
  split <;> [skip; split] <;> simp

/-- Claim C4 amended, witness: the retryable branch evaluated on a concrete
rate-limit error sleeps the configured 30 seconds. -/
theorem classifier_deterministic_but_effectful_witness :
    (handle_errors
      { code := "TooManyRequests", message := "rate limited",
        httpStatus := 429 }
      { notifyEmail := false, email := "", emailPassword := "",
        discordWebhook := "" } 30).2 = [Effect.sleep 30] := by
  have h := classifier_deterministic_but_effectful
    { code := "TooManyRequests", message := "rate limited", httpStatus := 429 }
    { notifyEmail := false, email := "", emailPassword := "",
      discordWebhook := "" }
    { notifyEmail := true, email := "a", emailPassword := "b",
      discordWebhook := "c" } 30 7
  exact h.2.1 (by decide)

/-- Claim C5: when the precheck found nothing and the create call fails with
code LimitExceeded, a single re-run of the idempotency guard decides the
outcome: if it finds an instance of the target shape in an active state the
attempt succeeds as AlreadyExists (success, not Fatal); if it finds none the
error falls through to the ordinary retryable/fatal classification. -/
theorem limit_exceeded_recheck_rescue (shape msg : String) (st : Nat)
    (pre post : List Instance)
    (hpre : check_instance_exists pre shape = none) :
    (∀ inst, check_instance_exists post shape = some inst →
      (attempt_instance_creation shape
        ⟨pre, LaunchResult.serviceError "LimitExceeded" msg st, post⟩).1 =
        { success := true, retry_possible := false,
          message := "Instance created: " ++ inst.display_name }) ∧
    (check_instance_exists post shape = none →
      (attempt_instance_creation shape
        ⟨pre, LaunchResult.serviceError "LimitExceeded" msg st, post⟩).1 =
        classify_service_error "LimitExceeded" msg st) := by
  constructor
  · intro inst hfound
    simp [attempt_instance_creation, hpre, hfound]
  · intro hnone
    simp [attempt_instance_creation, hpre, hnone]

/-- Claim C5, witness: a LimitExceeded failure whose re-check finds a
RUNNING instance of the target shape yields the AlreadyExists success
triple. -/
theorem limit_exceeded_recheck_rescue_witness :
    (attempt_instance_creation "VM.Standard.A1.Flex"
      ⟨[], LaunchResult.serviceError "LimitExceeded" "limit reached" 400,
       [{ shape := "VM.Standard.A1.Flex", lifecycle_state := "RUNNING",
          display_name := "disp", id := "ocid1" }]⟩).1 =
    { success := true, retry_possible := false,
      message := "Instance created: " ++ "disp" } :=
  (limit_exceeded_recheck_rescue "VM.Standard.A1.Flex" "limit reached" 400 []
      [{ shape := "VM.Standard.A1.Flex", lifecycle_state := "RUNNING",
         display_name := "disp", id := "ocid1" }] (by decide)).1
    { shape := "VM.Standard.A1.Flex", lifecycle_state := "RUNNING",
      display_name := "disp", id := "ocid1" } (by decide)

/-- Claim C6: over a fully drained listing, check_instance_exists returns a
match if and only if some listed instance has the target shape and an active
lifecycle state (RUNNING, PROVISIONING or STARTING); any returned match is
the first such instance in listing order, and a TERMINATED instance is never
returned even when its shape matches. -/
theorem check_instance_exists_spec (l : List Instance) (shape : String) :
    ((check_instance_exists l shape).isSome ↔
      ∃ i, i ∈ l ∧ i.shape = shape ∧
        (i.lifecycle_state = "RUNNING" ∨ i.lifecycle_state = "PROVISIONING" ∨
         i.lifecycle_state = "STARTING")) ∧
    (∀ i, check_instance_exists l shape = some i →
      i.shape = shape ∧
      (i.lifecycle_state = "RUNNING" ∨ i.lifecycle_state = "PROVISIONING" ∨
       i.lifecycle_state = "STARTING") ∧
      ∃ pre suf, l = pre ++ i :: suf ∧
        ∀ j ∈ pre, ¬(j.shape = shape ∧ (j.lifecycle_state = "RUNNING" ∨
          j.lifecycle_state = "PROVISIONING" ∨
          j.lifecycle_state = "STARTING"))) ∧
    (∀ i, check_instance_exists l shape = some i →
      i.lifecycle_state ≠ "TERMINATED") := by
  refine ⟨?_, ?_, ?_⟩
  · rw [check_instance_exists, List.find?_isSome]
    constructor
    · rintro ⟨x, hx, hp⟩
      exact ⟨x, hx, (instanceMatches_iff shape x).1 hp⟩
    · rintro ⟨x, hx, hp⟩
      exact ⟨x, hx, (instanceMatches_iff shape x).2 hp⟩
  · intro i h
    rw [check_instance_exists, List.find?_eq_some] at h
    obtain ⟨hp, pre, suf, hl, hpre⟩ := h
    obtain ⟨h1, h2⟩ := (instanceMatches_iff shape i).1 hp
    refine ⟨h1, h2, pre, suf, hl, ?_⟩
    intro j hj hcon
    have := hpre j hj
    rw [(instanceMatches_iff shape j).2 hcon] at this
    simp at this
  · intro i h
    have hp := List.find?_some h
    obtain ⟨-, h2⟩ := (instanceMatches_iff shape i).1 hp
    intro hterm
    rcases h2 with h2 | h2 | h2 <;> rw [hterm] at h2 <;> simp at h2

/-- Claim C6, witness: on a listing whose first shape-matching instance is
TERMINATED, the guard skips it and returns the later RUNNING one, whose
state is not TERMINATED. -/
theorem check_instance_exists_spec_witness :
    check_instance_exists
      [{ shape := "s", lifecycle_state := "TERMINATED", display_name := "a",
         id := "1" },
       { shape := "s", lifecycle_state := "RUNNING", display_name := "b",
         id := "2" }] "s" =
      some { shape := "s", lifecycle_state := "RUNNING", display_name := "b",
             id := "2" } ∧
    Instance.lifecycle_state
      { shape := "s", lifecycle_state := "RUNNING", display_name := "b",
        id := "2" } ≠ "TERMINATED" := by
  refine ⟨by decide, ?_⟩
  exact (check_instance_exists_spec
    [{ shape := "s", lifecycle_state := "TERMINATED", display_name := "a",
       id := "1" },
     { shape := "s", lifecycle_state := "RUNNING", display_name := "b",
       id := "2" }] "s").2.2
    { shape := "s", lifecycle_state := "RUNNING", display_name := "b",
      id := "2" } (by decide)

/-- Claim C7: under the startup validation (the shape is one of the two
supported values), the parameter resolver produces the fixed shape
configuration ocpus 1, memory 6 GiB, baseline utilization BASELINE_1_1 for
the flex ARM shape, and no shape configuration for the fixed micro shape. -/
theorem shape_config_resolution (shape : String) (h : validShape shape) :
    (shape = ARM_SHAPE →
      resolve_shape_config shape =
        some { ocpus := 1, memory_in_gbs := 6,
               baseline_ocpu_utilization := "BASELINE_1_1" }) ∧
    (shape = E2_MICRO_SHAPE → resolve_shape_config shape = none) := by
  rcases h with h | h <;> subst h
  · exact ⟨fun _ => by decide, fun h2 => absurd h2 (by decide)⟩
  · exact ⟨fun h2 => absurd h2 (by decide), fun _ => by decide⟩

/-- Claim C7, witness: the two supported shapes evaluated concretely. -/
theorem shape_config_resolution_witness :
    resolve_shape_config "VM.Standard.A1.Flex" =
      some { ocpus := 1, memory_in_gbs := 6,
             baseline_ocpu_utilization := "BASELINE_1_1" } ∧
    resolve_shape_config "VM.Standard.E2.1.Micro" = none :=
  ⟨(shape_config_resolution "VM.Standard.A1.Flex" (Or.inl rfl)).1 rfl,
   (shape_config_resolution "VM.Standard.E2.1.Micro" (Or.inr rfl)).2 rfl⟩

/-- Claim C8: the cyclic availability-domain sequence is an unbounded
round-robin: the pull with zero-based index k (the (k+1)-th pull) yields
candidate number k modulo the list length, pulling past the list length
wraps around with period equal to the length, and the singleton cycle built
when the configuration names one valid domain yields that domain on every
pull. -/
theorem availability_domain_round_robin (l adNames : List String) (k : Nat)
    (d octFreeAd : String) (hl : l ≠ []) :
    pullN l l k = l.get? (k % l.length) ∧
    pullN l l (k + l.length) = pullN l l k ∧
    pullN [d] [d] k = some d ∧
    (octFreeAd ≠ "" → adNames.contains octFreeAd = true →
      resolve_ad_cycle octFreeAd adNames = some [octFreeAd] ∧
      pullN [octFreeAd] [octFreeAd] k = some octFreeAd) := by
  have h0 : ∀ (l2 : List String), l2 ≠ [] → ∀ m,
      pullN l2 l2 m = l2.get? (m % l2.length) := by
    intro l2 hl2 m
    have h := pullN_mod l2 m 0 hl2 (Nat.zero_le _)
    simpa using h
  have hsingle : ∀ (s : String), pullN [s] [s] k = some s := by
    intro s
    rw [h0 [s] (by simp) k]
    simp [Nat.mod_one]
  refine ⟨h0 l hl k, ?_, hsingle d, ?_⟩
  · rw [h0 l hl, h0 l hl, Nat.add_mod_right]
  · intro h1 h2
    refine ⟨?_, hsingle octFreeAd⟩
    simp only [List.contains_iff_exists_mem_beq] at h2
    simp [resolve_ad_cycle, h1]
    obtain ⟨x, hx, hbeq⟩ := h2
    rw [beq_iff_eq] at hbeq
    rwa [hbeq]

/-- Claim C8, witness: a two-element cycle wraps (the fourth pull repeats
the second candidate), a configured valid domain resolves to the singleton
cycle, and the singleton cycle keeps yielding that domain. -/
theorem availability_domain_round_robin_witness :
    pullN ["ad1", "ad2"] ["ad1", "ad2"] 3 = some "ad2" ∧
    resolve_ad_cycle "ad1" ["ad1", "ad2"] = some ["ad1"] ∧
    pullN ["ad1"] ["ad1"] 5 = some "ad1" := by
  have h := availability_domain_round_robin ["ad1", "ad2"] ["ad1", "ad2"] 3
    "d" "ad1" (by decide)
  have h5 := availability_domain_round_robin ["ad1"] ["ad1", "ad2"] 5
    "d" "ad1" (by decide)
  refine ⟨?_, ?_, ?_⟩
  · have h1 := h.1
    simpa using h1
  · exact (h.2.2.2 (by decide) (by decide)).1
  · exact (h5.2.2.2 (by decide) (by decide)).2

/-- Claim C9: when no file exists at the public-key path (and the derived
private-key path is distinct, as it is for any path containing .pub), the
resolver generates a 2048-bit key pair and persists both halves; a second
run against the resulting file system reads the persisted public key back,
returns a string identical to the first result, performs no effect (no
regeneration, no write), and leaves the file system unchanged.  The
hypothesis on pyStrip reflects that the paramiko key name and base64 output
carry no surrounding whitespace. -/
theorem ssh_key_generation_idempotent (fs : FS) (pub : String)
    (g1 g2 : GeneratedKey) (hmissing : fs pub = none)
    (hpriv : pyReplace pub ".pub" "" ≠ pub)
    (htrim : pyStrip (g1.name ++ " " ++ g1.base64) =
      g1.name ++ " " ++ g1.base64) :
    ((read_or_generate_ssh_public_key fs pub g1).1 =
      g1.name ++ " " ++ g1.base64) ∧
    ((read_or_generate_ssh_public_key fs pub g1).2.2 =
      [Effect.generateKey 2048,
       Effect.writeFile (pyReplace pub ".pub" "") g1.privMaterial,
       Effect.writeFile pub (g1.name ++ " " ++ g1.base64)]) ∧
    ((read_or_generate_ssh_public_key fs pub g1).2.1 pub =
      some (g1.name ++ " " ++ g1.base64)) ∧
    ((read_or_generate_ssh_public_key fs pub g1).2.1
        (pyReplace pub ".pub" "") = some g1.privMaterial) ∧
    ((read_or_generate_ssh_public_key
        (read_or_generate_ssh_public_key fs pub g1).2.1 pub g2).1 =
      (read_or_generate_ssh_public_key fs pub g1).1) ∧
    ((read_or_generate_ssh_public_key
        (read_or_generate_ssh_public_key fs pub g1).2.1 pub g2).2.1 =
      (read_or_generate_ssh_public_key fs pub g1).2.1) ∧
    ((read_or_generate_ssh_public_key
        (read_or_generate_ssh_public_key fs pub g1).2.1 pub g2).2.2 = []) := by
  refine ⟨?_, ?_, ?_, ?_, ?_, ?_, ?_⟩ <;>
    simp [read_or_generate_ssh_public_key, hmissing, hpriv, htrim]

/-- Claim C9, witness: starting from an empty file system, the first call
on id_rsa.pub returns the generated public key and the second call returns
the same string while performing no effect. -/
theorem ssh_key_generation_idempotent_witness :
    ((read_or_generate_ssh_public_key (fun _ => none) "id_rsa.pub"
        { name := "ssh-rsa", base64 := "AAAAB3Nza", privMaterial := "PRIV" }).1 =
      "ssh-rsa AAAAB3Nza") ∧
    ((read_or_generate_ssh_public_key
        (read_or_generate_ssh_public_key (fun _ => none) "id_rsa.pub"
          { name := "ssh-rsa", base64 := "AAAAB3Nza",
            privMaterial := "PRIV" }).2.1
        "id_rsa.pub"
        { name := "ssh-rsa", base64 := "OTHER", privMaterial := "P2" }).1 =
      "ssh-rsa AAAAB3Nza") ∧
    ((read_or_generate_ssh_public_key
        (read_or_generate_ssh_public_key (fun _ => none) "id_rsa.pub"
          { name := "ssh-rsa", base64 := "AAAAB3Nza",
            privMaterial := "PRIV" }).2.1
        "id_rsa.pub"
        { name := "ssh-rsa", base64 := "OTHER", privMaterial := "P2" }).2.2 =
      []) := by
  have h := ssh_key_generation_idempotent (fun _ => none) "id_rsa.pub"
    { name := "ssh-rsa", base64 := "AAAAB3Nza", privMaterial := "PRIV" }
    { name := "ssh-rsa", base64 := "OTHER", privMaterial := "P2" }
    rfl (by decide) (by decide)
  refine ⟨?_, ?_, h.2.2.2.2.2.2⟩
  · rw [h.1]; decide
  · rw [h.2.2.2.2.1, h.1]; decide

/-- Claim C10: the INSTANCE_CREATED marker is written exactly when the
launch call was acknowledged with HTTP status 200 or a LimitExceeded error
was followed by a re-check that found an instance of the target shape; when
the up-front check already finds an instance the attempt succeeds without
writing the marker, and no failure path (success false) writes it. -/
theorem marker_file_exactly_on_success (shape : String) (env : AttemptEnv) :
    (Effect.writeMarker ∈ (attempt_instance_creation shape env).2 ↔
      (check_instance_exists env.preInstances shape = none ∧
        ((∃ iid, env.launch = LaunchResult.response 200 iid) ∨
         (∃ msg st,
            env.launch = LaunchResult.serviceError "LimitExceeded" msg st ∧
            (check_instance_exists env.postInstances shape).isSome)))) ∧
    (∀ inst, check_instance_exists env.preInstances shape = some inst →
      (attempt_instance_creation shape env).1.success = true ∧
      (attempt_instance_creation shape env).2 = []) ∧
    ((attempt_instance_creation shape env).1.success = false →
      Effect.writeMarker ∉ (attempt_instance_creation shape env).2) := by
  obtain ⟨preI, launch, postI⟩ := env
  rcases hpre : check_instance_exists preI shape with _ | inst0
  · cases launch with
    | response status iid =>
      by_cases h200 : status = 200
      · subst h200
        simp [attempt_instance_creation, hpre]
      · simp [attempt_instance_creation, hpre, h200]
    | serviceError code cmsg cst =>
      by_cases hlim : code = "LimitExceeded"
      · subst hlim
        rcases hpost : check_instance_exists postI shape with _ | inst1
        · simp [attempt_instance_creation, hpre, hpost,
            classify_service_error]
        · simp [attempt_instance_creation, hpre, hpost]
      · simp only [attempt_instance_creation, hpre]
        rw [if_neg (by simpa using hlim)]
        simp [classify_service_error, hlim]
    | otherError m =>
      simp [attempt_instance_creation, hpre]
  · simp [attempt_instance_creation, hpre]

/-- Claim C10, witness: when the up-front check finds a RUNNING instance of
the target shape, the attempt succeeds and writes nothing. -/
theorem marker_file_exactly_on_success_witness :
    (attempt_instance_creation "s"
      ⟨[{ shape := "s", lifecycle_state := "RUNNING", display_name := "d",
          id := "1" }], LaunchResult.otherError "unused", []⟩).1.success =
      true ∧
    (attempt_instance_creation "s"
      ⟨[{ shape := "s", lifecycle_state := "RUNNING", display_name := "d",
          id := "1" }], LaunchResult.otherError "unused", []⟩).2 = [] :=
  (marker_file_exactly_on_success "s"
    ⟨[{ shape := "s", lifecycle_state := "RUNNING", display_name := "d",
        id := "1" }], LaunchResult.otherError "unused", []⟩).2.1
    { shape := "s", lifecycle_state := "RUNNING", display_name := "d",
      id := "1" } (by decide)

end Oci
